import Mathlib

/-!
# Verification of the SKP Grade Analyzer core

A shallow embedding of the grade-analyzer repository: the canonical data
model (`types.ts`), the upload / download handlers of the `App` component,
and — since `services/processor.ts` is not part of the provided sources —
models of the Format Parser, Row Normalizer, Result Evaluator, Stats
Aggregator and Report Renderer built from the specification's component
contracts (each such definition is marked `Modelled from the spec:`).
Numeric marks and averages are modelled with `ℚ` (exact arithmetic).
-/

namespace Grade

/-- Per-subject status, from `types.ts`: `status: 'PASS' | 'FAIL' | 'ABSENT'`.
`StudentData.resultStatus` is declared in `types.ts` as the restriction
`'PASS' | 'FAIL'`; we model it with the same three-valued type and prove
that the normalizer never assigns `ABSENT` to it. -/
inductive Status where
  | PASS
  | FAIL
  | ABSENT
deriving DecidableEq, Repr

/-- A mark cell value, from `types.ts`:
`mark: number | string; // Could be "AB", "F", or numeric`. -/
inductive MarkValue where
  | str (s : String)
  | num (q : ℚ)
deriving DecidableEq, Repr

/-- `SubjectMark` from `types.ts`. -/
structure SubjectMark where
  subject : String
  mark : MarkValue
  status : Status
  color : String
deriving DecidableEq, Repr

/-- `StudentData` from `types.ts`. -/
structure StudentData where
  regNo : String
  name : String
  dept : String
  subjects : List SubjectMark
  totalMarks : ℚ
  resultStatus : Status
  absentCount : Nat
deriving DecidableEq, Repr

/-- `ParsingStats` from `types.ts`. -/
structure ParsingStats where
  totalStudents : Nat
  totalPassed : Nat
  totalFailed : Nat
  averageScore : ℚ
deriving DecidableEq, Repr

/-! ## Result Evaluator (modelled from the spec)

`services/processor.ts` is absent from the sources; the definitions below
follow §4.2/§4.3 of the specification. -/

/-- Modelled from the spec: the fixed pass threshold of the Result
Evaluator ("a pass threshold (fixed constant, e.g., 40)"). -/
def PASS_THRESHOLD : ℚ := 40

/-- Strip leading and trailing whitespace from a character list
(JavaScript's `trim`). -/
def trimChars (l : List Char) : List Char :=
  ((l.dropWhile Char.isWhitespace).reverse.dropWhile Char.isWhitespace).reverse

/-- A whitespace-trimmed, upper-cased token for case-insensitive
comparison. -/
def normToken (s : String) : String :=
  String.mk ((trimChars s.toList).map Char.toUpper)

/-- Split a character list at every occurrence of the separator
(JavaScript's `split` with a one-character separator: `n` separators
yield `n + 1` pieces, empty pieces included). -/
def splitChars (sep : Char) : List Char → List (List Char)
  | [] => [[]]
  | c :: rest =>
    match splitChars sep rest with
    | [] => if c = sep then [[], []] else [[c]]
    | g :: gs => if c = sep then [] :: g :: gs else (c :: g) :: gs

/-- Split a string at every occurrence of a one-character separator. -/
def splitStr (sep : Char) (s : String) : List String :=
  (splitChars sep s.toList).map String.mk

/-- Modelled from the spec: the absence sentinel test — "a sentinel token
(\"AB\", \"ABSENT\", case-insensitive)". -/
def isAbsentSentinel (s : String) : Bool :=
  normToken s = "AB" || normToken s = "ABSENT"

/-- Modelled from the spec: the fail sentinel test — "a non-passing-grade
token (\"F\", \"FAIL\")", case-insensitive like the absence sentinel. -/
def isFailSentinel (s : String) : Bool :=
  normToken s = "F" || normToken s = "FAIL"

/-- The value of a decimal digit, `none` for any other character. -/
def digitVal? (c : Char) : Option Nat :=
  if '0' ≤ c ∧ c ≤ '9' then some (c.toNat - '0'.toNat) else none

/-- Read a non-empty all-digit character list as a natural number. -/
def digitsToNat? (l : List Char) : Option Nat :=
  if l.isEmpty then none
  else
    l.foldl
      (fun acc c =>
        match acc, digitVal? c with
        | some a, some d => some (10 * a + d)
        | _, _ => none)
      (some 0)

/-- Modelled from the spec: parse a cell as "a non-negative
integer/decimal mark" — digits with an optional single decimal point.
Returns `none` when the cell is not such a numeral. -/
def parseMark? (s : String) : Option ℚ :=
  match splitChars '.' (trimChars s.toList) with
  | [w] => (digitsToNat? w).map (fun n => (n : ℚ))
  | [w, f] =>
    match digitsToNat? w, digitsToNat? f with
    | some a, some b => some ((a : ℚ) + (b : ℚ) / ((10 : ℚ) ^ f.length))
    | _, _ => none
  | _ => none

/-- Modelled from the spec: the Result Evaluator's status for a raw mark
cell, with the threshold as an explicit argument: sentinel tokens map to
their fixed status regardless of the threshold; otherwise the cell is
parsed as a non-negative number, `PASS` at or above the threshold, `FAIL`
below ("absent sentinel → ABSENT; below-threshold numeric → FAIL; else
PASS"). An unparseable non-sentinel cell is treated as `FAIL`. -/
def evalStatusWith (threshold : ℚ) (s : String) : Status :=
  if isAbsentSentinel s then .ABSENT
  else if isFailSentinel s then .FAIL
  else
    match parseMark? s with
    | some q => if threshold ≤ q then .PASS else .FAIL
    | none => .FAIL

/-- Modelled from the spec: the evaluator at the fixed threshold. -/
def evalStatus (s : String) : Status :=
  evalStatusWith PASS_THRESHOLD s

/-- Modelled from the spec: the numeric value a cell contributes to the
total — "Total marks = sum of numeric (non-absent, non-fail-sentinel)
marks"; sentinels and unparseable cells contribute 0. -/
def cellContribution (s : String) : ℚ :=
  if isAbsentSentinel s then 0
  else if isFailSentinel s then 0
  else
    match parseMark? s with
    | some q => q
    | none => 0

/-- Modelled from the spec: the stored `mark` field of a subject — the
original token for sentinels and unparseable cells ("Could be \"AB\",
\"F\", or numeric"), the parsed number otherwise. -/
def cellMarkValue (s : String) : MarkValue :=
  if isAbsentSentinel s then .str s
  else if isFailSentinel s then .str s
  else
    match parseMark? s with
    | some q => .num q
    | none => .str s

/-- Modelled from the spec: the display color tag for a status (a HEX
code for UI/PDF; the concrete codes are presentation detail). -/
def statusColor : Status → String
  | .PASS => "#00ff9d"
  | .FAIL => "#ff0055"
  | .ABSENT => "#ffaa00"

/-- Modelled from the spec: the `SubjectMark` the Normalizer records for
one subject column and its raw cell. -/
def evalCell (subject : String) (cell : String) : SubjectMark :=
  { subject := subject
    mark := cellMarkValue cell
    status := evalStatus cell
    color := statusColor (evalStatus cell) }

/-! ## Row Normalizer (modelled from the spec) -/

/-- Modelled from the spec: the identity-field naming convention — "the
fixed identity-field names — registration number, name, department"
(header cells `RegNo`, `Name`, `Dept`/`Department`, compared
case-insensitively). -/
def isIdentityField (c : String) : Bool :=
  let u := normToken c
  u = "REGNO" || u = "NAME" || u = "DEPT" || u = "DEPARTMENT"

/-- Modelled from the spec: positional cell access with "missing trailing
fields as empty" — a ragged row reads `""` past its end. -/
def getCell (cells : List String) (i : Nat) : String :=
  cells.getD i ""

/-- Modelled from the spec: the value of the first header column whose
name satisfies `p`, or `""` when no such column exists ("defaulted to
empty string, not treated as an error"). -/
def identityValue (header : List String) (cells : List String)
    (p : String → Bool) : String :=
  match header.findIdx? p with
  | some i => getCell cells i
  | none => ""

/-- Modelled from the spec: the subject columns of a header — "any column
not matching the fixed identity-field names ... is treated as a subject
with its mark" — paired with their positional indices. -/
def subjectColumns (header : List String) : List (Nat × String) :=
  header.enum.filter (fun p => !isIdentityField p.2)

/-- Modelled from the spec: the `SubjectMark`s of one row — every
subject column evaluated on its positional cell. -/
def rowSubjects (header : List String) (cells : List String) :
    List SubjectMark :=
  (subjectColumns header).map (fun p => evalCell p.2 (getCell cells p.1))

/-- Modelled from the spec: the Row Normalizer — map one generic row to a
`StudentData`: identity fields by name, every other column a subject
evaluated by the Result Evaluator; `totalMarks` sums the numeric
(non-sentinel) contributions; overall result "FAIL if any subject is FAIL
or ABSENT, else PASS"; `absentCount` counts ABSENT subjects. -/
def normalizeRow (header : List String) (cells : List String) : StudentData :=
  { regNo := identityValue header cells (fun c => normToken c = "REGNO")
    name := identityValue header cells (fun c => normToken c = "NAME")
    dept := identityValue header cells
      (fun c => normToken c = "DEPT" || normToken c = "DEPARTMENT")
    subjects := rowSubjects header cells
    totalMarks := ((subjectColumns header).map
      (fun p => cellContribution (getCell cells p.1))).sum
    resultStatus :=
      if (rowSubjects header cells).any
          (fun m => m.status = Status.FAIL || m.status = Status.ABSENT)
      then .FAIL else .PASS
    absentCount := (rowSubjects header cells).countP
      (fun m => m.status = Status.ABSENT) }

/-- Modelled from the spec: normalize every data row, preserving order. -/
def normalizeAll (header : List String) (rows : List (List String)) :
    List StudentData :=
  rows.map (normalizeRow header)

/-! ## Format Parser, CSV path (modelled from the spec) -/

/-- Modelled from the spec: the CSV Format Parser — "split on line
boundaries then field delimiter". -/
def parseCSVRows (content : String) : List (List String) :=
  (splitStr '\n' content).map (fun line => splitStr ',' line)

/-- Modelled from the spec: parse then normalize a CSV document — "first
row is header; each subsequent row maps header cells to corresponding
cells positionally". -/
def processCSV (content : String) : List StudentData :=
  match parseCSVRows content with
  | [] => []
  | header :: rows => normalizeAll header rows

/-! ## Stats Aggregator (modelled from the spec) -/

/-- Modelled from the spec: the Stats Aggregator — "total count; count
where resultStatus = PASS; count where resultStatus = FAIL; average of
totalMarks across all students (0 when list is empty — division-by-zero
must be guarded)". -/
def computeStats (l : List StudentData) : ParsingStats :=
  { totalStudents := l.length
    totalPassed := l.countP (fun s => s.resultStatus = Status.PASS)
    totalFailed := l.countP (fun s => s.resultStatus = Status.FAIL)
    averageScore :=
      if l.length = 0 then 0
      else (l.map (fun s => s.totalMarks)).sum / (l.length : ℚ) }

/-! ## The `App` component's handlers (from `src/unnamed/part_000`)

The React state (`students`, `stats`, `loading`, the file input's value)
is modelled as an explicit record; toast notifications and triggered
downloads are returned as effect lists. The missing `processFile` /
`generateAllReports` implementations enter as oracles: `handleFileUpload`
receives the already-awaited outcome of `processFile`, and
`handleDownloadAll` receives the batch generator as a function
argument, so the theorems about them are decided by the `App` code
alone. -/

structure AppState where
  students : List StudentData
  stats : Option ParsingStats
  loading : Bool
  inputValue : String
deriving DecidableEq, Repr

/-- A toast notification (`toast.success` / `toast.error`). -/
inductive ToastMsg where
  | success (msg : String)
  | error (msg : String)
deriving DecidableEq, Repr

/-- The outcome of the awaited `processFile(file)` call: either parsed
data with stats, or a thrown error carrying `err.message`. -/
inductive ProcessResult where
  | ok (data : List StudentData) (stats : ParsingStats)
  | err (msg : String)
deriving DecidableEq, Repr

/-- `handleFileUpload` from `App`: with no file selected it returns at
once; otherwise it sets `loading`, clears `students` and `stats`, runs
`processFile`, stores its data and stats (toasting success) or toasts the
error (`err.message || "Failed to parse file"`), and in the `finally`
block clears `loading` and resets the input's value. -/
def handleFileUpload (s : AppState) (file : Option Unit)
    (result : ProcessResult) : AppState × List ToastMsg :=
  match file with
  | none => (s, [])
  | some _ =>
    let s₁ : AppState := { s with loading := true, students := [], stats := none }
    match result with
    | .ok data stats =>
      ({ s₁ with students := data, stats := some stats,
                 loading := false, inputValue := "" },
       [.success ("Successfully parsed " ++ toString data.length ++ " records!")])
    | .err msg =>
      ({ s₁ with loading := false, inputValue := "" },
       [.error (if msg = "" then "Failed to parse file" else msg)])

/-- A produced download artifact (opaque content). -/
structure Artifact where
  content : String
deriving DecidableEq, Repr

/-- The observable outcome of `handleDownloadAll`: the artifacts
downloaded, the toasts shown, and whether the confirm dialog appeared. -/
structure BatchResult where
  artifacts : List Artifact
  toasts : List ToastMsg
  confirmShown : Bool
deriving DecidableEq, Repr

/-- `handleDownloadAll` from `App`: an empty list returns immediately
(before the confirm dialog); a declined confirm also returns; otherwise
`generateAllReports` (the oracle `genAll`) runs and its success or thrown
error is toasted. -/
def handleDownloadAll (genAll : List StudentData → Except String (List Artifact))
    (confirmAnswer : Bool) (students : List StudentData) : BatchResult :=
  if students.length = 0 then ⟨[], [], false⟩
  else if !confirmAnswer then ⟨[], [], true⟩
  else
    match genAll students with
    | .ok arts => ⟨arts, [.success "All reports generated!"], true⟩
    | .error _ => ⟨[], [.error "Error generating batch reports"], true⟩

/-- `charsStart hay needle`: `hay` starts with `needle`. -/
def charsStart : List Char → List Char → Bool
  | _, [] => true
  | [], _ :: _ => false
  | a :: as, b :: bs => (a = b) && charsStart as bs

/-- `charsContain hay needle`: `needle` occurs contiguously in `hay`. -/
def charsContain (hay needle : List Char) : Bool :=
  match hay with
  | [] => needle.isEmpty
  | _ :: t => charsStart hay needle || charsContain t needle

/-- JavaScript's `a.toLowerCase().includes(b.toLowerCase())`. -/
def strIncludes (hay needle : String) : Bool :=
  charsContain (hay.toList.map Char.toLower) (needle.toList.map Char.toLower)

/-- The search predicate of the preview table:
`s.regNo.toLowerCase().includes(q) || s.name.toLowerCase().includes(q)`
with `q` the lower-cased query. -/
def matchesQuery (q : String) (s : StudentData) : Bool :=
  strIncludes s.regNo q || strIncludes s.name q

/-- `filteredStudents` from `App`:
`students.filter(...).slice(0, 20)` — the matching students, in list
order, limited to the first 20. -/
def filteredStudents (students : List StudentData) (q : String) :
    List StudentData :=
  (students.filter (matchesQuery q)).take 20

/-! ## Master JSON export (modelled from the spec)

"Master export: serialize the entire StudentData list to a single
structured text artifact (a complete, lossless dump of all fields)". The
artifact is modelled as a JSON value; `decodeMaster` witnesses the
losslessness. -/

/-- A structured JSON-like artifact value. -/
inductive Json where
  | jstr (s : String)
  | jnum (q : ℚ)
  | jarr (items : List Json)
  | jobj (fields : List (String × Json))

/-- Modelled from the spec: serialize a status to its literal. -/
def encodeStatus : Status → Json
  | .PASS => .jstr "PASS"
  | .FAIL => .jstr "FAIL"
  | .ABSENT => .jstr "ABSENT"

/-- Read a status back from the artifact. -/
def decodeStatus : Json → Option Status
  | .jstr "PASS" => some .PASS
  | .jstr "FAIL" => some .FAIL
  | .jstr "ABSENT" => some .ABSENT
  | _ => none

/-- Modelled from the spec: serialize a mark value (string sentinel or
number) as the corresponding JSON scalar. -/
def encodeMark : MarkValue → Json
  | .str s => .jstr s
  | .num q => .jnum q

/-- Read a mark value back from the artifact. -/
def decodeMark : Json → Option MarkValue
  | .jstr s => some (.str s)
  | .jnum q => some (.num q)
  | _ => none

/-- Modelled from the spec: a natural count as a JSON number. -/
def encodeNat (n : Nat) : Json := .jnum (n : ℚ)

/-- Read a natural count back from the artifact. -/
def decodeNat : Json → Option Nat
  | .jnum q => if q.den = 1 ∧ 0 ≤ q.num then some q.num.toNat else none
  | _ => none

/-- Modelled from the spec: serialize one `SubjectMark` with all its
fields. -/
def encodeSubject (m : SubjectMark) : Json :=
  .jobj [("subject", .jstr m.subject), ("mark", encodeMark m.mark),
         ("status", encodeStatus m.status), ("color", .jstr m.color)]

/-- Read one `SubjectMark` back from the artifact. -/
def decodeSubject : Json → Option SubjectMark
  | .jobj [("subject", .jstr subj), ("mark", mk),
           ("status", st), ("color", .jstr col)] =>
    match decodeMark mk, decodeStatus st with
    | some mv, some sv => some ⟨subj, mv, sv, col⟩
    | _, _ => none
  | _ => none

/-- Read a list of subjects back from the artifact. -/
def decodeSubjects : List Json → Option (List SubjectMark)
  | [] => some []
  | j :: rest =>
    match decodeSubject j, decodeSubjects rest with
    | some m, some ms => some (m :: ms)
    | _, _ => none

/-- Modelled from the spec: serialize one `StudentData` with every
field. -/
def encodeStudent (st : StudentData) : Json :=
  .jobj [("regNo", .jstr st.regNo), ("name", .jstr st.name),
         ("dept", .jstr st.dept),
         ("subjects", .jarr (st.subjects.map encodeSubject)),
         ("totalMarks", .jnum st.totalMarks),
         ("resultStatus", encodeStatus st.resultStatus),
         ("absentCount", encodeNat st.absentCount)]

/-- Read one `StudentData` back from the artifact. -/
def decodeStudent : Json → Option StudentData
  | .jobj [("regNo", .jstr r), ("name", .jstr n), ("dept", .jstr d),
           ("subjects", .jarr subs), ("totalMarks", .jnum t),
           ("resultStatus", rs), ("absentCount", ac)] =>
    match decodeSubjects subs, decodeStatus rs, decodeNat ac with
    | some ms, some sv, some a => some ⟨r, n, d, ms, t, sv, a⟩
    | _, _, _ => none
  | _ => none

/-- Read a list of students back from the artifact's array items. -/
def decodeStudents : List Json → Option (List StudentData)
  | [] => some []
  | j :: rest =>
    match decodeStudent j, decodeStudents rest with
    | some st, some sts => some (st :: sts)
    | _, _ => none

/-- Modelled from the spec: `generateMasterJSON` — the master export, a
single structured artifact holding the entire list. -/
def generateMasterJSON (l : List StudentData) : Json :=
  .jarr (l.map encodeStudent)

/-- Read the full student list back from a master artifact. -/
def decodeMaster : Json → Option (List StudentData)
  | .jarr items => decodeStudents items
  | _ => none

/-- The number of records a master artifact contains. -/
def recordCount : Json → Nat
  | .jarr items => items.length
  | _ => 0

/-! ## Claim-side definitions and helper lemmas -/

/-- The numeric value carried by a stored mark: the number for numeric
marks, `0` for string (sentinel) marks. -/
def markNumericValue : MarkValue → ℚ
  | .num q => q
  | .str _ => 0

/-- The total as the claim C2 words it: the sum of the numeric marks of
exactly those subjects whose status is `PASS`. -/
def sumPassMarks (subs : List SubjectMark) : ℚ :=
  ((subs.filter (fun m => m.status = Status.PASS)).map
    (fun m => markNumericValue m.mark)).sum

theorem markNumericValue_cellMarkValue (s : String) :
    markNumericValue (cellMarkValue s) = cellContribution s := by
  cases h1 : isAbsentSentinel s <;> cases h2 : isFailSentinel s <;>
    cases h3 : parseMark? s <;>
      simp [cellMarkValue, cellContribution, markNumericValue, h1, h2, h3]

theorem any_fail_absent_iff (L : List SubjectMark) :
    (L.any (fun m => m.status = Status.FAIL || m.status = Status.ABSENT)) = true ↔
      ∃ m ∈ L, (m.status = Status.FAIL ∨ m.status = Status.ABSENT) := by
  simp

/-- Claim C1: for every normalized student record, `resultStatus` is
`PASS` iff every subject has status `PASS`; it is `FAIL` iff some subject
is `FAIL` or `ABSENT`; and it is always one of `PASS`/`FAIL`, never
`ABSENT`. -/
theorem resultStatus_pass_iff_all_pass (header cells : List String) :
    ((normalizeRow header cells).resultStatus = Status.PASS ↔
      ∀ m ∈ (normalizeRow header cells).subjects, m.status = Status.PASS) ∧
    ((normalizeRow header cells).resultStatus = Status.FAIL ↔
      ∃ m ∈ (normalizeRow header cells).subjects,
        (m.status = Status.FAIL ∨ m.status = Status.ABSENT)) ∧
    ((normalizeRow header cells).resultStatus = Status.PASS ∨
      (normalizeRow header cells).resultStatus = Status.FAIL) := by
  have hsub : (normalizeRow header cells).subjects =
      (subjectColumns header).map (fun p => evalCell p.2 (getCell cells p.1)) := rfl
  have hres : (normalizeRow header cells).resultStatus =
      (if ((subjectColumns header).map
            (fun p => evalCell p.2 (getCell cells p.1))).any
          (fun m => m.status = Status.FAIL || m.status = Status.ABSENT)
       then Status.FAIL else Status.PASS) := rfl
  rw [hsub, hres]
  set L := (subjectColumns header).map (fun p => evalCell p.2 (getCell cells p.1))
  rcases Decidable.em
      (∃ m ∈ L, (m.status = Status.FAIL ∨ m.status = Status.ABSENT)) with
    hany | hany
  · rw [if_pos ((any_fail_absent_iff L).mpr hany)]
    obtain ⟨m, hm, hor⟩ := hany
    refine ⟨⟨fun h => absurd h (by simp), fun hall => ?_⟩,
            ⟨fun _ => ⟨m, hm, hor⟩, fun _ => rfl⟩, Or.inr rfl⟩
    have hp := hall m hm
    rcases hor with h | h <;> rw [hp] at h <;> exact Status.noConfusion h
  · rw [if_neg (fun hc => hany ((any_fail_absent_iff L).mp hc))]
    refine ⟨⟨fun _ m hm => ?_, fun _ => rfl⟩,
            ⟨fun h => absurd h (by simp), fun he => absurd he hany⟩, Or.inl rfl⟩
    cases hst : m.status
    · rfl
    · exact absurd ⟨m, hm, Or.inl hst⟩ hany
    · exact absurd ⟨m, hm, Or.inr hst⟩ hany

theorem totalMarks_sum_aux (header cells : List String) :
    (normalizeRow header cells).totalMarks =
      ((normalizeRow header cells).subjects.map
        (fun m => markNumericValue m.mark)).sum := by
  have hsub : (normalizeRow header cells).subjects =
      (subjectColumns header).map (fun p => evalCell p.2 (getCell cells p.1)) := rfl
  have htot : (normalizeRow header cells).totalMarks =
      ((subjectColumns header).map
        (fun p => cellContribution (getCell cells p.1))).sum := rfl
  have hf : ((fun m : SubjectMark => markNumericValue m.mark) ∘
      (fun p : Nat × String => evalCell p.2 (getCell cells p.1))) =
      (fun p : Nat × String => cellContribution (getCell cells p.1)) := by
    funext p
    simp [Function.comp, evalCell, markNumericValue_cellMarkValue]
  rw [hsub, htot, List.map_map, hf]

/-- Claim C2 counterexample: a single-subject row with the numeric mark
`30` (below the threshold, so status `FAIL`) gets `totalMarks = 30`,
while the sum of the marks of the `PASS` subjects is `0`. -/
theorem totalMarks_ne_sumPassMarks_at_30 :
    (normalizeRow ["RegNo", "Math"] ["S001", "30"]).totalMarks ≠
      sumPassMarks (normalizeRow ["RegNo", "Math"] ["S001", "30"]).subjects := by
  have hs : (normalizeRow ["RegNo", "Math"] ["S001", "30"]).subjects =
      [⟨"Math", .num 30, .FAIL, "#ff0055"⟩] := by
    decide
  rw [totalMarks_sum_aux, hs]
  simp [sumPassMarks, markNumericValue]

/-- Claim C2 (amended): `totalMarks` is the sum of the numeric values of
the stored marks of all subjects — a numeric mark contributes its value
even when its status is `FAIL` (below threshold); only subjects whose
stored mark is non-numeric (the `ABSENT`/`FAIL` sentinels and unparseable
cells) contribute `0`. -/
theorem totalMarks_eq_sum_numeric (header cells : List String) :
    (normalizeRow header cells).totalMarks =
      ((normalizeRow header cells).subjects.map
        (fun m => markNumericValue m.mark)).sum :=
  totalMarks_sum_aux header cells

theorem parseMark?_nonneg (s : String) (q : ℚ) (h : parseMark? s = some q) :
    0 ≤ q := by
  unfold parseMark? at h
  rcases hs : splitChars '.' (trimChars s.toList) with _ | ⟨w, _ | ⟨f, _ | _⟩⟩ <;>
      rw [hs] at h
  · simp at h
  · rcases hw : digitsToNat? w with _ | n <;> simp [hw] at h
    rw [← h]
    positivity
  · rcases hw : digitsToNat? w with _ | a <;>
      rcases hf : digitsToNat? f with _ | b <;> simp [hw, hf] at h
    rw [← h]
    positivity
  · simp at h

/-- Claim C3: sentinel cells evaluate to their fixed status for every
threshold (`AB`/`ABSENT`, case-insensitive, to `ABSENT`; `F`/`FAIL` to
`FAIL`); any other cell that parses does so as a non-negative number and
evaluates to `PASS` at or above the threshold, `FAIL` below; the deployed
evaluator is the thresholded one at the fixed constant `40`. -/
theorem evalStatus_spec (t : ℚ) (s : String) (q : ℚ) :
    (isAbsentSentinel s = true → evalStatusWith t s = Status.ABSENT) ∧
    (isAbsentSentinel s = false → isFailSentinel s = true →
      evalStatusWith t s = Status.FAIL) ∧
    (isAbsentSentinel s = false → isFailSentinel s = false →
      parseMark? s = some q →
      0 ≤ q ∧
        evalStatusWith t s = (if t ≤ q then Status.PASS else Status.FAIL)) ∧
    evalStatus s = evalStatusWith 40 s := by
  refine ⟨fun h1 => ?_, fun h1 h2 => ?_, fun h1 h2 h3 => ⟨?_, ?_⟩, rfl⟩
  · simp [evalStatusWith, h1]
  · simp [evalStatusWith, h1, h2]
  · exact parseMark?_nonneg s q h3
  · simp [evalStatusWith, h1, h2, h3]

/-- Claim C3 witness: the evaluator at concrete inputs — `" Ab "` is
`ABSENT` even at threshold `0`, `"fail"` is `FAIL` even at threshold
`100`, and `"55"` parses to the non-negative `55` and passes at the fixed
threshold `40`. -/
theorem evalStatus_spec_witness :
    (evalStatusWith 0 " Ab " = Status.ABSENT) ∧
    (evalStatusWith 100 "fail" = Status.FAIL) ∧
    (0 ≤ (55 : ℚ) ∧
      evalStatusWith 40 "55" =
        (if (40 : ℚ) ≤ (55 : ℚ) then Status.PASS else Status.FAIL)) :=
  ⟨(evalStatus_spec 0 " Ab " 0).1 (by decide),
   (evalStatus_spec 100 "fail" 0).2.1 (by decide) (by decide),
   (evalStatus_spec 40 "55" 55).2.2.1 (by decide) (by decide) (by decide)⟩

/-- Claim C4: the Stats Aggregator on the empty list yields all-zero
stats; the average is produced by the guarded branch, not by a division
by zero. -/
theorem computeStats_empty : computeStats [] = ⟨0, 0, 0, 0⟩ := rfl

/-- Claim C5: on a non-empty list the Stats Aggregator returns the list
length, the count of `PASS` records, the count of `FAIL` records, and
the arithmetic mean of `totalMarks`. -/
theorem computeStats_nonempty (l : List StudentData) (h : l ≠ []) :
    computeStats l =
      { totalStudents := l.length
        totalPassed := l.countP (fun s => s.resultStatus = Status.PASS)
        totalFailed := l.countP (fun s => s.resultStatus = Status.FAIL)
        averageScore := (l.map (fun s => s.totalMarks)).sum / (l.length : ℚ) } := by
  unfold computeStats
  have hne : l.length ≠ 0 := by simpa using h
  simp [hne]

/-- Claim C5 witness: two all-pass students with totals `40` and `80`
give `totalStudents = 2`, `totalPassed = 2`, `totalFailed = 0`, and
`averageScore = 60`. -/
theorem computeStats_nonempty_witness :
    computeStats [⟨"S1", "A", "", [], 40, .PASS, 0⟩,
                  ⟨"S2", "B", "", [], 80, .PASS, 0⟩] =
      ⟨2, 2, 0, 60⟩ := by
  rw [computeStats_nonempty
    [⟨"S1", "A", "", [], 40, .PASS, 0⟩, ⟨"S2", "B", "", [], 80, .PASS, 0⟩]
    (by simp)]
  simp only [List.countP_cons, List.countP_nil, List.map_cons, List.map_nil,
    List.sum_cons, List.sum_nil, List.length_cons, List.length_nil]
  norm_num
  decide

theorem getCell_append_replicate (cells : List String) (k i : Nat) :
    getCell (cells ++ List.replicate k "") i = getCell cells i := by
  simp only [getCell, List.getD_eq_getElem?_getD]
  rw [List.getElem?_append]
  rcases Nat.lt_or_ge i cells.length with h | h
  · rw [if_pos h]
  · rw [if_neg (Nat.not_lt.mpr h), List.getElem?_replicate,
        List.getElem?_eq_none h]
    split <;> rfl

theorem normalizeRow_congr (header c₁ c₂ : List String)
    (h : ∀ i, getCell c₁ i = getCell c₂ i) :
    normalizeRow header c₁ = normalizeRow header c₂ := by
  have hm : (fun p : Nat × String => evalCell p.2 (getCell c₁ p.1)) =
      (fun p : Nat × String => evalCell p.2 (getCell c₂ p.1)) :=
    funext fun p => by rw [h]
  have hc : (fun p : Nat × String => cellContribution (getCell c₁ p.1)) =
      (fun p : Nat × String => cellContribution (getCell c₂ p.1)) :=
    funext fun p => by rw [h]
  have hid : ∀ p : String → Bool,
      identityValue header c₁ p = identityValue header c₂ p := by
    intro p
    unfold identityValue
    cases header.findIdx? p <;> simp [h]
  unfold normalizeRow rowSubjects
  rw [hm, hc]
  simp only [hid]

/-- Claim C6: when the CSV parser splits the content into a header row
and `N` data rows, the parser-plus-normalizer pipeline yields exactly `N`
records, the `i`-th record normalized from the `i`-th data row; and a
ragged row normalizes exactly like the same row padded with empty
trailing fields. -/
theorem processCSV_length_order (content : String) (header : List String)
    (rows : List (List String))
    (h : parseCSVRows content = header :: rows) :
    (processCSV content).length = rows.length ∧
    processCSV content = rows.map (normalizeRow header) ∧
    (∀ cells k, normalizeRow header (cells ++ List.replicate k "") =
      normalizeRow header cells) := by
  have hp : processCSV content = rows.map (normalizeRow header) := by
    unfold processCSV
    rw [h]
    rfl
  exact ⟨by rw [hp, List.length_map], hp,
    fun cells k =>
      normalizeRow_congr header _ _ (fun i => getCell_append_replicate cells k i)⟩

/-- Claim C6 witness: a concrete CSV with a header and two data rows
yields exactly two records. -/
theorem processCSV_length_order_witness :
    parseCSVRows "RegNo,Name,Math\nS001,Alice,55\nS002,Bob,AB" =
      ["RegNo", "Name", "Math"] ::
        [["S001", "Alice", "55"], ["S002", "Bob", "AB"]] ∧
    (processCSV "RegNo,Name,Math\nS001,Alice,55\nS002,Bob,AB").length = 2 := by
  have hp : parseCSVRows "RegNo,Name,Math\nS001,Alice,55\nS002,Bob,AB" =
      ["RegNo", "Name", "Math"] ::
        [["S001", "Alice", "55"], ["S002", "Bob", "AB"]] := by
    decide
  exact ⟨hp, by simpa using (processCSV_length_order _ _ _ hp).1⟩

/-- Claim C7: for every prior UI state, a failed upload leaves an empty
student list, no stats (any previously displayed results are cleared,
since they are wiped before the parse and not restored), a cleared
loading flag, a reset file input (so the operation can be retried), and a
single error toast carrying the failure message. -/
theorem handleFileUpload_error (s : AppState) (msg : String) :
    handleFileUpload s (some ()) (.err msg) =
      ({ students := [], stats := none, loading := false, inputValue := "" },
       [ToastMsg.error (if msg = "" then "Failed to parse file" else msg)]) :=
  rfl

/-- Claim C8: `handleDownloadAll` on the empty student list is a no-op
for every batch generator and every confirm answer: no artifacts, no
toasts (in particular no error), and the confirm dialog is never
shown. -/
theorem handleDownloadAll_empty
    (genAll : List StudentData → Except String (List Artifact))
    (confirmAnswer : Bool) :
    handleDownloadAll genAll confirmAnswer [] =
      { artifacts := [], toasts := [], confirmShown := false } :=
  rfl

theorem decodeStatus_encodeStatus (s : Status) :
    decodeStatus (encodeStatus s) = some s := by
  cases s <;> rfl

theorem decodeMark_encodeMark (m : MarkValue) :
    decodeMark (encodeMark m) = some m := by
  cases m <;> rfl

theorem decodeNat_encodeNat (n : Nat) : decodeNat (encodeNat n) = some n := by
  simp [decodeNat, encodeNat]

theorem decodeSubject_encodeSubject (m : SubjectMark) :
    decodeSubject (encodeSubject m) = some m := by
  obtain ⟨subj, mk, st, col⟩ := m
  cases mk <;> cases st <;> rfl

theorem decodeSubjects_map_encode (l : List SubjectMark) :
    decodeSubjects (l.map encodeSubject) = some l := by
  induction l with
  | nil => rfl
  | cons m rest ih =>
    simp [decodeSubjects, decodeSubject_encodeSubject, ih]

theorem decodeStudent_encodeStudent (st : StudentData) :
    decodeStudent (encodeStudent st) = some st := by
  obtain ⟨r, n, d, subs, t, rs, a⟩ := st
  simp [encodeStudent, decodeStudent, decodeSubjects_map_encode,
    decodeStatus_encodeStatus, decodeNat_encodeNat]

theorem decodeStudents_map_encode (l : List StudentData) :
    decodeStudents (l.map encodeStudent) = some l := by
  induction l with
  | nil => rfl
  | cons st rest ih =>
    simp [decodeStudents, decodeStudent_encodeStudent, ih]

/-- Claim C9: the master export is lossless — decoding the artifact
recovers the exact in-memory list (every field of every record), and the
artifact's record count equals the list's length. -/
theorem generateMasterJSON_roundtrip (l : List StudentData) :
    decodeMaster (generateMasterJSON l) = some l ∧
    recordCount (generateMasterJSON l) = l.length :=
  ⟨by simp [generateMasterJSON, decodeMaster, decodeStudents_map_encode],
   by simp [generateMasterJSON, recordCount]⟩

/-- The first `n` students matching the query, in list order — the
preview as the claim words it. -/
def firstMatches (q : String) : Nat → List StudentData → List StudentData
  | _, [] => []
  | 0, _ :: _ => []
  | n + 1, s :: rest =>
    if matchesQuery q s then s :: firstMatches q n rest
    else firstMatches q (n + 1) rest

theorem firstMatches_zero (q : String) (l : List StudentData) :
    firstMatches q 0 l = [] := by
  cases l <;> rfl

theorem filter_take_eq_firstMatches (q : String) (n : Nat)
    (l : List StudentData) :
    (l.filter (matchesQuery q)).take n = firstMatches q n l := by
  induction l generalizing n with
  | nil => cases n <;> simp [firstMatches]
  | cons s rest ih =>
    cases hm : matchesQuery q s <;> cases n <;>
      simp [firstMatches, firstMatches_zero, hm, ih]

/-- Claim C10: the preview list equals the first 20 students (in list
order) whose registration number or name contains the query
case-insensitively; every shown student matches, at most 20 are shown,
and the result is an order-preserving sublist of the untouched student
list. -/
theorem filteredStudents_spec (students : List StudentData) (q : String) :
    filteredStudents students q = firstMatches q 20 students ∧
    (∀ s ∈ filteredStudents students q, matchesQuery q s = true) ∧
    (filteredStudents students q).length ≤ 20 ∧
    (filteredStudents students q).Sublist students := by
  refine ⟨filter_take_eq_firstMatches q 20 students, ?_, ?_, ?_⟩
  · intro s hs
    have hs' : s ∈ students.filter (matchesQuery q) :=
      List.take_subset _ _ hs
    exact (List.mem_filter.mp hs').2
  · exact List.length_take_le _ _
  · exact (List.take_sublist _ _).trans (List.filter_sublist _)

end Grade
